import Mathlib

/-!
# Verification of the GiveAwayBot giveaway lifecycle core

A shallow embedding of the giveaway-bot's record store (`src/database.py`),
lifecycle scheduler (`src/utils/scheduler.py`), winner selector
(`src/utils/helpers.py`) and validation gate (`src/utils/validation.py`),
with theorems settling the stated correctness claims.

Modelling conventions:
* Python `dict`s are association lists (`List (κ × υ)`), insertion-ordered,
  with first-match lookup; inserting a fresh key appends at the end exactly
  as a Python dict does.
* Instants are integers (seconds); a stored ISO timestamp string is embedded
  as its parsed value.  An absent or unparseable `end_time` is `none` (the
  source treats both alike in every function modelled here: the parse-failure
  branch falls through to the same behaviour as the missing-key branch).
* Randomness (`random.sample`) is passed in explicitly as a pre-shuffled
  list: `random.sample(pop, k)` is the first `k` entries of some permutation
  of `pop`, so the functions take the permutation as a parameter.
* `async` methods are sequential state transformers `Store → α × Store`;
  outward messages (announcements, DMs) are emitted as an event list.
-/

namespace GiveAwayBot

/-! ## Association-list primitives (Python dict embedding) -/

/-- First-match lookup in an association list, as Python dict lookup. -/
def alLookup {κ υ : Type} [DecidableEq κ] : List (κ × υ) → κ → Option υ
  | [], _ => none
  | (k, v) :: t, a => if k = a then some v else alLookup t a

/-- Overwrite the value stored at an existing key, keeping list position. -/
def alOverwrite {κ υ : Type} [DecidableEq κ] :
    List (κ × υ) → κ → υ → List (κ × υ)
  | [], _, _ => []
  | (a, b) :: t, k, v =>
      if a = k then (k, v) :: alOverwrite t k v else (a, b) :: alOverwrite t k v

/-- `d[k] = v` on a Python dict: overwrite in place if the key exists,
append at the end otherwise. -/
def alSet {κ υ : Type} [DecidableEq κ] (l : List (κ × υ)) (k : κ) (v : υ) :
    List (κ × υ) :=
  match alLookup l k with
  | some _ => alOverwrite l k v
  | none => l ++ [(k, v)]

/-- In-place mutation of the value stored at `k` (no-op on a missing key). -/
def alModify {κ υ : Type} [DecidableEq κ] :
    List (κ × υ) → κ → (υ → υ) → List (κ × υ)
  | [], _, _ => []
  | (a, b) :: t, k, f =>
      if a = k then (a, f b) :: alModify t k f else (a, b) :: alModify t k f

/-- `del d[k]` on a Python dict. -/
def alErase {κ υ : Type} [DecidableEq κ] :
    List (κ × υ) → κ → List (κ × υ)
  | [], _ => []
  | (a, b) :: t, k =>
      if a = k then alErase t k else (a, b) :: alErase t k

theorem alLookup_alModify_self {κ υ : Type} [DecidableEq κ]
    (l : List (κ × υ)) (k : κ) (f : υ → υ) :
    alLookup (alModify l k f) k = (alLookup l k).map f := by
  induction l with
  | nil => rfl
  | cons p t ih =>
      obtain ⟨a, b⟩ := p
      by_cases h : a = k
      · subst h
        simp [alModify, alLookup]
      · simp [alModify, alLookup, h, ih]

theorem alLookup_alModify_ne {κ υ : Type} [DecidableEq κ]
    (l : List (κ × υ)) (k a : κ) (f : υ → υ) (h : k ≠ a) :
    alLookup (alModify l k f) a = alLookup l a := by
  induction l with
  | nil => rfl
  | cons p t ih =>
      obtain ⟨x, b⟩ := p
      by_cases hp : x = k
      · subst hp
        simp [alModify, alLookup, h, ih]
      · by_cases ha : x = a
        · subst ha
          simp [alModify, alLookup, hp]
        · simp [alModify, alLookup, hp, ha, ih]

theorem alLookup_append_right {κ υ : Type} [DecidableEq κ]
    (l : List (κ × υ)) (k : κ) (v : υ) (h : alLookup l k = none) :
    alLookup (l ++ [(k, v)]) k = some v := by
  induction l with
  | nil => simp [alLookup]
  | cons p t ih =>
      obtain ⟨a, b⟩ := p
      by_cases hp : a = k
      · subst hp
        simp [alLookup] at h
      · simp [alLookup, hp] at h ⊢
        exact ih h

theorem alLookup_alOverwrite {κ υ : Type} [DecidableEq κ]
    (l : List (κ × υ)) (k : κ) (v w : υ) (h : alLookup l k = some w) :
    alLookup (alOverwrite l k v) k = some v := by
  induction l with
  | nil => simp [alLookup] at h
  | cons p t ih =>
      obtain ⟨a, b⟩ := p
      by_cases hp : a = k
      · subst hp
        simp [alLookup, alOverwrite]
      · simp [alLookup, alOverwrite, hp] at h ⊢
        exact ih h

theorem alLookup_alSet_self {κ υ : Type} [DecidableEq κ]
    (l : List (κ × υ)) (k : κ) (v : υ) :
    alLookup (alSet l k v) k = some v := by
  unfold alSet
  cases hl : alLookup l k with
  | some w =>
      exact alLookup_alOverwrite l k v w hl
  | none => exact alLookup_append_right l k v hl

/-! ## Data model (records stored in `data/database.json`) -/

/-- A giveaway record (`src/database.py`, `create_giveaway`). -/
structure Giveaway where
  event_name : String
  prize_type : String
  prize_details : String
  winner_count : Int
  start_time : Option Int
  end_time : Option Int
  status : String
  participants_count : Nat
  winners_selected : Bool
  ended_at : Option Int
  deriving DecidableEq, Repr

/-- A participant record, keyed by `(giveaway_id, user_id)`
(`add_participant`). -/
structure Participant where
  user_id : Nat
  username : Option String
  first_name : Option String
  last_name : Option String
  joined_at : Int
  is_active : Bool
  last_check : Int
  deriving DecidableEq, Repr

/-- A winner record (`add_winner`). -/
structure Winner where
  user_id : Nat
  won_at : Int
  prize_claimed : Bool
  claimed_at : Option Int
  prize_details : Option String
  deriving DecidableEq, Repr

/-- A ban record (`ban_user`): unbanning deactivates, never deletes. -/
structure Ban where
  user_id : Nat
  active : Bool
  reason : String
  deriving DecidableEq, Repr

/-- A cooldown entry (`set_cooldown`), keyed in the source by the string
`str(user_id) ++ "_" ++ action`; since `str(user_id)` contains no
underscore that key is in bijection with the pair, which we use directly. -/
structure Cooldown where
  expires_at : Int
  action : String
  set_at : Int
  deriving DecidableEq, Repr

/-- A broadcast chat (`add_broadcast_chat`). -/
structure Chat where
  chat_id : Option Int
  username : Option String
  active : Bool
  deriving DecidableEq, Repr

/-- A log entry (`add_log`); `ltype` embeds the source's `type` field. -/
structure LogEntry where
  ltype : String
  user_id : Nat
  giveaway_id : Option String
  details : String
  deriving DecidableEq, Repr

/-- Per-user statistics (`update_user_stats`). -/
structure UserStats where
  user_id : Nat
  first_seen : Int
  last_seen : Int
  total_participations : Nat
  total_wins : Nat
  total_removals : Nat
  deriving DecidableEq, Repr

/-- The settings sub-document. -/
structure Settings where
  last_cleanup : Int
  version : String
  deriving DecidableEq, Repr

/-- The whole in-memory store (`JSONDatabase.data`). -/
structure Store where
  giveaways : List (String × Giveaway)
  participants : List (String × List (Nat × Participant))
  winners : List (String × List Winner)
  banned_users : List Ban
  broadcast_chats : List Chat
  user_cooldowns : List ((Nat × String) × Cooldown)
  logs : List LogEntry
  giveaway_counters : List (String × Nat)
  user_stats : List (Nat × UserStats)
  settings : Settings
  deriving DecidableEq, Repr

/-! ## Cooldown methods (`src/database.py` lines 600-674) -/

/-- `JSONDatabase.check_cooldown(user_id, action)`: returns the boolean the
source returns together with the mutated store (an entry at or past its
expiry is deleted on the way out). -/
def check_cooldown (s : Store) (now : Int) (user_id : Nat) (action : String) :
    Bool × Store :=
  match alLookup s.user_cooldowns (user_id, action) with
  | some cd =>
      if now < cd.expires_at then
        (false, s)
      else
        (true, { s with user_cooldowns := alErase s.user_cooldowns (user_id, action) })
  | none => (true, s)

/-- `JSONDatabase.get_remaining_cooldown(user_id, action)`: the source
computes `(expires - now).seconds`, the seconds COMPONENT of the Python
timedelta, i.e. the floor-mod of the total difference by 86400. -/
def get_remaining_cooldown (s : Store) (now : Int) (user_id : Nat)
    (action : String) : Int :=
  match alLookup s.user_cooldowns (user_id, action) with
  | some cd => max 0 ((cd.expires_at - now) % 86400)
  | none => 0

/-- `JSONDatabase.set_cooldown(user_id, action, seconds)`. -/
def set_cooldown (s : Store) (now : Int) (user_id : Nat) (action : String)
    (seconds : Int) : Store :=
  let entry : Cooldown :=
    { expires_at := now + seconds, action := action, set_at := now }
  { s with user_cooldowns := alSet s.user_cooldowns (user_id, action) entry }

/-! ## User statistics (`update_user_stats`, lines 721-749) -/

inductive StatKind where
  | participations
  | wins
  | removals
  deriving DecidableEq, Repr

def bumpStat : StatKind → UserStats → UserStats
  | .participations, u => { u with total_participations := u.total_participations + 1 }
  | .wins, u => { u with total_wins := u.total_wins + 1 }
  | .removals, u => { u with total_removals := u.total_removals + 1 }

/-- `JSONDatabase.update_user_stats(user_id, stat_type, 1)`: create a zeroed
entry if absent, refresh `last_seen`, then bump the named counter. -/
def update_user_stats (s : Store) (now : Int) (user_id : Nat)
    (stat : StatKind) : Store :=
  let base : UserStats :=
    match alLookup s.user_stats user_id with
    | some u => u
    | none =>
        { user_id := user_id, first_seen := now, last_seen := now,
          total_participations := 0, total_wins := 0, total_removals := 0 }
  { s with user_stats :=
      alSet s.user_stats user_id (bumpStat stat { base with last_seen := now }) }

/-! ## Ban / participant queries used by the validation gate -/

/-- `JSONDatabase.is_banned(user_id)`. -/
def is_banned (s : Store) (user_id : Nat) : Bool :=
  s.banned_users.any (fun b => b.user_id = user_id && b.active)

/-- Participant dict for one giveaway (`self.data["participants"][gid]`). -/
def participantsOf (s : Store) (gid : String) : List (Nat × Participant) :=
  (alLookup s.participants gid).getD []

/-- `JSONDatabase.get_participants(gid)` with the default
`active_only=True`. -/
def get_participants (s : Store) (gid : String) : List (Nat × Participant) :=
  (participantsOf s gid).filter (fun p => p.2.is_active)

/-- `JSONDatabase.is_participant(gid, user_id)`:
`bool(user_data and user_data.get("is_active", True))`. -/
def is_participant (s : Store) (gid : String) (user_id : Nat) : Bool :=
  match alLookup (participantsOf s gid) user_id with
  | some p => p.is_active
  | none => false

/-! ## Logs -/

/-- `JSONDatabase.add_log`: append, then keep only the newest 5000. -/
def add_log (s : Store) (e : LogEntry) : Store :=
  let l := s.logs ++ [e]
  { s with logs := if 5000 < l.length then l.drop (l.length - 5000) else l }

/-! ## `add_participant` (`src/database.py` lines 296-363) -/

/-- The profile snapshot the caller passes in (`user_data`). -/
structure UserData where
  username : Option String
  first_name : Option String
  last_name : Option String
  deriving DecidableEq, Repr

/-- The `participant_data` record `add_participant` builds before
inserting. -/
def participant_data (u : UserData) (user_id : Nat) (now : Int) :
    Participant :=
  { user_id := user_id, username := u.username, first_name := u.first_name,
    last_name := u.last_name, joined_at := now, is_active := true,
    last_check := now }

/-- The defensive end-time double check of `add_participant`: the check
fires only when an `end_time` is present (and parseable) and at or before
`now`. -/
def endTimePassed (g : Giveaway) (now : Int) : Bool :=
  match g.end_time with
  | some t => t ≤ now
  | none => false

/-- `JSONDatabase.add_participant(gid, user_id, user_data)`: returns the
`(ok, message)` pair of the source and the mutated store.  The checks run
in source order: unknown giveaway, inactive status, past end time,
duplicate membership; only then is the record inserted, the cached count
refreshed to the dict size, and the user's statistics bumped. -/
def add_participant (s : Store) (now : Int) (gid : String) (user_id : Nat)
    (u : UserData) : (Bool × String) × Store :=
  match alLookup s.giveaways gid with
  | none => ((false, "Giveaway not found"), s)
  | some g =>
      if g.status ≠ "active" then
        ((false, "Giveaway is not active"), s)
      else if endTimePassed g now then
        ((false, "Giveaway has ended"), s)
      else
        let s1 : Store :=
          match alLookup s.participants gid with
          | none => { s with participants := alSet s.participants gid [] }
          | some _ => s
        let plist := (alLookup s1.participants gid).getD []
        match alLookup plist user_id with
        | some _ => ((false, "Already joined this giveaway"), s1)
        | none =>
            let record : Participant := participant_data u user_id now
            let plist2 := plist ++ [(user_id, record)]
            let s2 := { s1 with participants := alSet s1.participants gid plist2 }
            let newGiveaways := alModify s2.giveaways gid
              (fun gg => { gg with participants_count := plist2.length })
            let s3 := { s2 with giveaways := newGiveaways }
            let s4 := update_user_stats s3 now user_id .participations
            ((true, "Successfully joined giveaway"), s4)

/-! ## `add_winner` (`src/database.py` lines 430-464) -/

/-- Winner list for one giveaway. -/
def winnersOf (s : Store) (gid : String) : List Winner :=
  (alLookup s.winners gid).getD []

/-- `JSONDatabase.add_winner(gid, user_id, prize_details)`: ensure the list
exists, reject a duplicate user with `false`, otherwise append the record,
set the giveaway's `winners_selected` flag and bump the user's win count. -/
def add_winner (s : Store) (now : Int) (gid : String) (user_id : Nat)
    (prize_details : Option String) : Bool × Store :=
  let w0 := alLookup s.winners gid
  let s1 : Store :=
    match w0 with
    | none => { s with winners := alSet s.winners gid [] }
    | some _ => s
  let ws := w0.getD []
  if ws.any (fun w => w.user_id = user_id) then
    (false, s1)
  else
    let record : Winner :=
      { user_id := user_id, won_at := now, prize_claimed := false,
        claimed_at := none, prize_details := prize_details }
    let s2 := { s1 with winners := alSet s1.winners gid (ws ++ [record]) }
    let flagged := alModify s2.giveaways gid
      (fun g => { g with winners_selected := true })
    let s3 : Store :=
      match alLookup s2.giveaways gid with
      | some _ => { s2 with giveaways := flagged }
      | none => s2
    let s4 := update_user_stats s3 now user_id .wins
    (true, s4)

/-! ## Winner selector (`src/utils/helpers.py` lines 112-124)

`random.sample(pop, k)` draws `k` distinct elements without replacement:
it returns the first `k` entries of some permutation of `pop`, so the
permutation is taken as an explicit parameter (`shuffled`). -/

/-- The `random.sample` draw given the shuffle the PRNG produced. -/
def pySample (shuffled : List Nat) (k : Nat) : List Nat :=
  shuffled.take k

/-- `Helpers.select_winners(participants, winner_count)`. -/
def select_winners (shuffled : List Nat)
    (participants : List (Nat × Participant)) (winner_count : Int) :
    List Nat :=
  if participants.isEmpty || winner_count ≤ 0 then []
  else
    let participant_ids := participants.map Prod.fst
    if (participant_ids.length : Int) ≤ winner_count then participant_ids
    else pySample shuffled winner_count.toNat

/-! ## Validation gate (`src/utils/validation.py` lines 10-45) -/

/-- The verdict: `(ok, message, missing_channels)` as returned by
`UserValidator.validate_participation`. -/
structure ValidationResult where
  ok : Bool
  message : String
  missing : Option (List String)
  deriving DecidableEq, Repr

/-- The boolean `check_cooldown` computes, without its eviction
side-effect: a cooldown blocks while an entry exists and `now` is strictly
before its expiry. -/
def cooldownActive (s : Store) (now : Int) (user_id : Nat)
    (action : String) : Bool :=
  match alLookup s.user_cooldowns (user_id, action) with
  | some cd => now < cd.expires_at
  | none => false

/-- `UserValidator.validate_participation(user, giveaway_id, db, client)`.
The channel-subscription oracle's answer `(all_subscribed, missing)` is a
parameter; the second component of the result records whether the oracle
was actually consulted (the source reaches `checker.check_subscription`
only after every local check has passed). -/
def validate_participation (s : Store) (now : Int) (user_id : Nat)
    (gid : String) (oracle : Bool × List String) :
    ValidationResult × Bool :=
  if is_banned s user_id then
    (⟨false, "🚫 Access Restricted\nYou are banned from using this bot.", none⟩,
      false)
  else
    match alLookup s.giveaways gid with
    | none => (⟨false, "No active giveaway found.", none⟩, false)
    | some g =>
        if g.status ≠ "active" then
          (⟨false, "This giveaway is not active.", none⟩, false)
        else if is_participant s gid user_id then
          (⟨false, "You have already joined this giveaway.", none⟩, false)
        else if cooldownActive s now user_id "participate" then
          (⟨false, "⏳ Please wait " ++
            toString (get_remaining_cooldown s now user_id "participate") ++
            " seconds before joining again.", none⟩, false)
        else if oracle.1 then
          (⟨true, "User validated successfully", none⟩, true)
        else
          (⟨false, "subscription_required", some oracle.2⟩, true)

/-! ## Store queries used by the scheduler (`src/database.py` 178-251) -/

/-- `JSONDatabase.get_active_giveaways()`: status `"active"` and end time
strictly in the future; a missing (or unparseable) end time counts as
active. -/
def get_active_giveaways (s : Store) (now : Int) :
    List (String × Giveaway) :=
  s.giveaways.filter (fun p =>
    p.2.status = "active" &&
      match p.2.end_time with
      | some t => decide (now < t)
      | none => true)

/-- `JSONDatabase.get_expired_giveaways()`: status `"active"` and end time
at or before `now`; entries without a parseable end time are skipped. -/
def get_expired_giveaways (s : Store) (now : Int) :
    List (String × Giveaway) :=
  s.giveaways.filter (fun p =>
    p.2.status = "active" &&
      match p.2.end_time with
      | some t => decide (t ≤ now)
      | none => false)

/-! ## Lifecycle scheduler (`src/utils/scheduler.py`) -/

/-- What `GiveawayScheduler.schedule_giveaway_end` does with one giveaway:
bail out without a timer when there is no (parseable) end time, end at
once when the end time has passed, otherwise register a timer. -/
inductive ScheduleAction where
  | noEndTime
  | endNow
  | timer (t : Int)
  deriving DecidableEq, Repr

def schedule_giveaway_end (now : Int) (g : Giveaway) : ScheduleAction :=
  match g.end_time with
  | none => .noEndTime
  | some t => if t ≤ now then .endNow else .timer t

/-- The giveaways `GiveawayScheduler.start` ends immediately at boot:
those in `get_active_giveaways` whose `schedule_giveaway_end` takes the
end-now branch. -/
def startImmediatelyEnded (s : Store) (now : Int) : List String :=
  ((get_active_giveaways s now).filter
    (fun p => decide (schedule_giveaway_end now p.2 = .endNow))).map Prod.fst

/-- The giveaway IDs for which `start` registers an end timer. -/
def timersRegistered (s : Store) (now : Int) : List String :=
  ((get_active_giveaways s now).filter
    (fun p => match schedule_giveaway_end now p.2 with
      | .timer _ => true
      | _ => false)).map Prod.fst

/-- `GiveawayScheduler.check_expired_giveaways` (the reconciliation
sweep): ends every expired-but-ACTIVE giveaway that has no pending timer
job. -/
def sweepEnds (s : Store) (now : Int) (jobs : List String) : List String :=
  ((get_expired_giveaways s now).map Prod.fst).filter
    (fun gid => decide (gid ∉ jobs))

/-! ## End-of-giveaway transition (`scheduler.py` lines 88-154) -/

/-- Outward messages sent during the transition. -/
inductive Event where
  | winnerAdded (gid : String) (user_id : Nat)
  | broadcast (chat_id : Int)
  | dm (user_id : Nat)
  | ownerMessage
  deriving DecidableEq, Repr

/-- `JSONDatabase.get_broadcast_chats()` with `active_only=True`. -/
def get_broadcast_chats (s : Store) : List Chat :=
  s.broadcast_chats.filter (fun c => c.active)

/-- One broadcast send per active chat that has a stored `chat_id`
(`announce_winners` / `announce_no_winners`). -/
def broadcastEvents (s : Store) : List Event :=
  (get_broadcast_chats s).filterMap (fun c => c.chat_id.map Event.broadcast)

/-- The `for winner_id in winners: await self.db.add_winner(...)` loop. -/
def addWinnersLoop (now : Int) (gid : String) :
    Store → List Nat → Store × List Event
  | s, [] => (s, [])
  | s, uid :: rest =>
      let r := add_winner s now gid uid none
      let r2 := addWinnersLoop now gid r.2 rest
      (r2.1, Event.winnerAdded gid uid :: r2.2)

/-- The status flip the transition writes first:
`update_giveaway(gid, {"status": "ended", "ended_at": ..,
"winners_selected": True})`.  (`update_giveaway` only touches an existing
key; `alModify` is the identity on a missing key, so this is exact.) -/
def endedUpdate (now : Int) (g : Giveaway) : Giveaway :=
  { g with status := "ended", ended_at := some now, winners_selected := true }

def flipToEnded (s : Store) (gid : String) (now : Int) : Store :=
  { s with giveaways := alModify s.giveaways gid (endedUpdate now) }

/-- Everything `end_giveaway` does after the status flip is durably in the
store: fetch active participants, draw and persist winners, announce,
notify, log.  `g` is the record fetched before the flip (the source reuses
it for `winner_count` and the announcement texts). -/
def endGiveawayAfterFlip (s : Store) (gid : String) (g : Giveaway)
    (now : Int) (shuffled : List Nat) : Store × List Event :=
  let parts := get_participants s gid
  if parts.isEmpty then
    (s, broadcastEvents s ++ [Event.ownerMessage])
  else
    let ws := select_winners shuffled parts g.winner_count
    let r := addWinnersLoop now gid s ws
    let s3 := add_log r.1
      { ltype := "giveaway_ended", user_id := 0, giveaway_id := some gid,
        details := "Giveaway ended with " ++ toString ws.length ++
          " winners out of " ++ toString parts.length ++ " participants" }
    (s3, r.2 ++ broadcastEvents r.1 ++ ws.map Event.dm ++
      (if ws.isEmpty then [] else [Event.ownerMessage]))

/-- `GiveawayScheduler.end_giveaway(giveaway_id)`: no-op on an unknown ID,
no-op when the status is already `"ended"`, otherwise flip the status
first and run the rest of the transition against the flipped store. -/
def end_giveaway (s : Store) (gid : String) (now : Int)
    (shuffled : List Nat) : Store × List Event :=
  match alLookup s.giveaways gid with
  | none => (s, [])
  | some g =>
      if g.status = "ended" then (s, [])
      else endGiveawayAfterFlip (flipToEnded s gid now) gid g now shuffled

/-! ## Persistence (`_load_data` / `_save_data`, `src/database.py` 21-100)

The backing JSON document is modelled as it is parsed: a record whose
top-level collections may each be missing, or an unparseable blob. -/

structure RawSettings where
  last_cleanup : Option Int
  version : Option String
  deriving DecidableEq, Repr

/-- A successfully parsed backing file; each top-level key may be
absent. -/
structure RawDoc where
  giveaways : Option (List (String × Giveaway))
  participants : Option (List (String × List (Nat × Participant)))
  winners : Option (List (String × List Winner))
  banned_users : Option (List Ban)
  broadcast_chats : Option (List Chat)
  user_cooldowns : Option (List ((Nat × String) × Cooldown))
  logs : Option (List LogEntry)
  giveaway_counters : Option (List (String × Nat))
  user_stats : Option (List (Nat × UserStats))
  settings : Option RawSettings
  deriving DecidableEq, Repr

inductive FileContent where
  | corrupt
  | parsed (doc : RawDoc)
  deriving DecidableEq, Repr

/-- The slice of the filesystem the database touches: the backing file and
its one-generation `.backup` companion. -/
structure FileSystem where
  file : Option FileContent
  backup : Option FileContent
  deriving DecidableEq, Repr

/-- `JSONDatabase._get_default_data()`. -/
def get_default_data (now : Int) : Store :=
  { giveaways := [], participants := [], winners := [], banned_users := [],
    broadcast_chats := [], user_cooldowns := [], logs := [],
    giveaway_counters := [], user_stats := [],
    settings := { last_cleanup := now, version := "2.0.0" } }

/-- Second phase of `_ensure_data_structure`: every giveaway key gets a
participant dict. -/
def ensureParticipantKeys (gs : List (String × Giveaway))
    (ps : List (String × List (Nat × Participant))) :
    List (String × List (Nat × Participant)) :=
  gs.foldl (fun acc p =>
    match alLookup acc p.1 with
    | some _ => acc
    | none => acc ++ [(p.1, [])]) ps

/-- `JSONDatabase._ensure_data_structure(data)`: backfill each missing
top-level key with its default; backfill missing settings subkeys; ensure
a participant dict per giveaway. -/
def ensure_data_structure (now : Int) (d : RawDoc) : Store :=
  let base := get_default_data now
  let gs := d.giveaways.getD base.giveaways
  { giveaways := gs,
    participants := ensureParticipantKeys gs (d.participants.getD base.participants),
    winners := d.winners.getD base.winners,
    banned_users := d.banned_users.getD base.banned_users,
    broadcast_chats := d.broadcast_chats.getD base.broadcast_chats,
    user_cooldowns := d.user_cooldowns.getD base.user_cooldowns,
    logs := d.logs.getD base.logs,
    giveaway_counters := d.giveaway_counters.getD base.giveaway_counters,
    user_stats := d.user_stats.getD base.user_stats,
    settings :=
      match d.settings with
      | none => base.settings
      | some rs =>
          { last_cleanup := rs.last_cleanup.getD base.settings.last_cleanup,
            version := rs.version.getD base.settings.version } }

/-- Serialisation: `json.dump` writes every collection. -/
def toRawDoc (s : Store) : RawDoc :=
  { giveaways := some s.giveaways, participants := some s.participants,
    winners := some s.winners, banned_users := some s.banned_users,
    broadcast_chats := some s.broadcast_chats,
    user_cooldowns := some s.user_cooldowns, logs := some s.logs,
    giveaway_counters := some s.giveaway_counters,
    user_stats := some s.user_stats,
    settings := some { last_cleanup := some s.settings.last_cleanup,
                       version := some s.settings.version } }

/-- `JSONDatabase._save_data(data)`: copy the existing file (if any) to
the backup slot, then overwrite the file. -/
def save_data (fs : FileSystem) (s : Store) : FileSystem :=
  { file := some (.parsed (toRawDoc s)),
    backup :=
      match fs.file with
      | some c => some c
      | none => fs.backup }

/-- `JSONDatabase._load_data()`: a missing file and an unparseable file
both yield (and persist) the default structure; a parsed file is repaired
by `_ensure_data_structure` and returned without rewriting. -/
def load_data (now : Int) (fs : FileSystem) : Store × FileSystem :=
  match fs.file with
  | none =>
      let d := get_default_data now
      (d, save_data fs d)
  | some .corrupt =>
      let d := get_default_data now
      (d, save_data fs d)
  | some (.parsed doc) => (ensure_data_structure now doc, fs)

/-! ## Further association-list lemmas -/

theorem alLookup_alOverwrite_ne {κ υ : Type} [DecidableEq κ]
    (l : List (κ × υ)) (k a : κ) (v : υ) (h : k ≠ a) :
    alLookup (alOverwrite l k v) a = alLookup l a := by
  induction l with
  | nil => rfl
  | cons p t ih =>
      obtain ⟨x, b⟩ := p
      by_cases hp : x = k
      · subst hp
        simp [alOverwrite, alLookup, h, ih]
      · by_cases ha : x = a
        · subst ha
          simp [alOverwrite, alLookup, hp]
        · simp [alOverwrite, alLookup, hp, ha, ih]

theorem alLookup_append_of_some {κ υ : Type} [DecidableEq κ]
    (l l2 : List (κ × υ)) (k : κ) (v : υ) (h : alLookup l k = some v) :
    alLookup (l ++ l2) k = some v := by
  induction l with
  | nil => simp [alLookup] at h
  | cons p t ih =>
      obtain ⟨a, b⟩ := p
      by_cases hp : a = k
      · subst hp
        simp [alLookup] at h ⊢
        exact h
      · simp [alLookup, hp] at h ⊢
        exact ih h

theorem alLookup_append_singleton_ne {κ υ : Type} [DecidableEq κ]
    (l : List (κ × υ)) (k a : κ) (v : υ) (h : k ≠ a) :
    alLookup (l ++ [(k, v)]) a = alLookup l a := by
  induction l with
  | nil => simp [alLookup, h]
  | cons p t ih =>
      obtain ⟨x, b⟩ := p
      by_cases hx : x = a
      · subst hx
        simp [alLookup]
      · simp [alLookup, hx, ih]

theorem alLookup_alSet_ne {κ υ : Type} [DecidableEq κ]
    (l : List (κ × υ)) (k a : κ) (v : υ) (h : k ≠ a) :
    alLookup (alSet l k v) a = alLookup l a := by
  unfold alSet
  cases hl : alLookup l k with
  | some w => exact alLookup_alOverwrite_ne l k a v h
  | none => exact alLookup_append_singleton_ne l k a v h

theorem alLookup_mem {κ υ : Type} [DecidableEq κ]
    (l : List (κ × υ)) (k : κ) (v : υ) (h : alLookup l k = some v) :
    (k, v) ∈ l := by
  induction l with
  | nil => simp [alLookup] at h
  | cons p t ih =>
      obtain ⟨a, b⟩ := p
      by_cases hp : a = k
      · subst hp
        simp [alLookup] at h
        simp [h]
      · simp [alLookup, hp] at h
        simp [ih h]

theorem alLookup_of_mem_nodup {κ υ : Type} [DecidableEq κ]
    (l : List (κ × υ)) (k : κ) (v : υ) (hnd : (l.map Prod.fst).Nodup)
    (hm : (k, v) ∈ l) : alLookup l k = some v := by
  induction l with
  | nil => simp at hm
  | cons p t ih =>
      obtain ⟨a, b⟩ := p
      rw [List.map_cons] at hnd
      have h1 : a ∉ t.map Prod.fst := (List.nodup_cons.mp hnd).1
      have h2 := (List.nodup_cons.mp hnd).2
      rcases List.mem_cons.mp hm with heq | ht
      · cases heq
        simp [alLookup]
      · have hak : a ≠ k := by
          intro hak
          apply h1
          rw [hak]
          exact List.mem_map_of_mem Prod.fst ht
        simp [alLookup, hak]
        exact ih h2 ht

theorem alLookup_none_of_isSome_eq {κ υ : Type} [DecidableEq κ]
    (l : List (κ × υ)) (k : κ) (h : alLookup l k = none) (v : υ)
    (hm : (k, v) ∈ l) : False := by
  induction l with
  | nil => simp at hm
  | cons p t ih =>
      obtain ⟨a, b⟩ := p
      by_cases hp : a = k
      · subst hp
        simp [alLookup] at h
      · simp [alLookup, hp] at h
        rcases List.mem_cons.mp hm with heq | ht
        · cases heq
          exact hp rfl
        · exact ih h ht

/-! ## Concrete fixtures for witnesses and counterexamples -/

def exParticipant (uid : Nat) : Participant :=
  { user_id := uid, username := none, first_name := none, last_name := none,
    joined_at := 1, is_active := true, last_check := 1 }

def exGiveaway : Giveaway :=
  { event_name := "Launch", prize_type := "coins", prize_details := "100",
    winner_count := 1, start_time := some 0, end_time := some 10,
    status := "active", participants_count := 1, winners_selected := false,
    ended_at := none }

def exStore : Store :=
  { giveaways := [("g", exGiveaway)],
    participants := [("g", [(7, exParticipant 7)])],
    winners := [],
    banned_users := [],
    broadcast_chats := [{ chat_id := some 5, username := none, active := true }],
    user_cooldowns :=
      [((7, "participate"), { expires_at := 100, action := "participate", set_at := 0 }),
       ((8, "participate"), { expires_at := 200000, action := "participate", set_at := 0 })],
    logs := [], giveaway_counters := [], user_stats := [],
    settings := { last_cleanup := 0, version := "2.0.0" } }

/-! ## Claim C3: selection bound -/

/-- C3: for every participant set and positive `k`, `select_winners`
returns exactly `min(|participants|, k)` distinct entries, all drawn from
the participant set; when `|participants| ≤ k` it returns all
participants. -/
theorem selection_bound (shuffled : List Nat)
    (participants : List (Nat × Participant)) (k : Int) (hk : 0 < k)
    (hnd : (participants.map Prod.fst).Nodup)
    (hsh : shuffled.Perm (participants.map Prod.fst)) :
    (select_winners shuffled participants k).length =
      min participants.length k.toNat ∧
    (select_winners shuffled participants k).Nodup ∧
    (∀ x ∈ select_winners shuffled participants k,
      x ∈ participants.map Prod.fst) ∧
    ((participants.length : Int) ≤ k →
      select_winners shuffled participants k = participants.map Prod.fst) := by
  have hk0 : ¬ k ≤ 0 := not_le.mpr hk
  by_cases hemp : participants.isEmpty
  · have hpe : participants = [] := List.isEmpty_iff.mp hemp
    subst hpe
    simp [select_winners]
  · by_cases hle : ((participants.map Prod.fst).length : Int) ≤ k
    · have hle2 : (participants.length : Int) ≤ k := by simpa using hle
      have hres : select_winners shuffled participants k =
          participants.map Prod.fst := by
        unfold select_winners
        simp [hemp, hk0, hle2]
      have hlen : participants.length ≤ k.toNat := by
        rw [← Int.le_toNat (le_of_lt hk)] at hle
        simpa using hle
      refine ⟨?_, ?_, ?_, fun _ => hres⟩
      · rw [hres]
        simp [Nat.min_eq_left hlen]
      · rw [hres]
        exact hnd
      · rw [hres]
        exact fun x hx => hx
    · have hle2 : ¬ (participants.length : Int) ≤ k := by simpa using hle
      have hres : select_winners shuffled participants k =
          shuffled.take k.toNat := by
        unfold select_winners
        simp [hemp, hk0, hle2, pySample]
      have hklt : k.toNat < participants.length := by
        have h1 : k < (participants.length : Int) := by
          push_neg at hle
          simpa using hle
        rwa [← Int.toNat_lt (le_of_lt hk)] at h1
      have hshlen : shuffled.length = participants.length := by
        have := hsh.length_eq
        simpa using this
      refine ⟨?_, ?_, ?_, ?_⟩
      · rw [hres, List.length_take, hshlen,
          Nat.min_eq_left (le_of_lt hklt), Nat.min_eq_right (le_of_lt hklt)]
      · rw [hres]
        exact ((hsh.nodup_iff).mpr hnd).sublist (List.take_sublist _ _)
      · intro x hx
        rw [hres] at hx
        exact (hsh.mem_iff).mp (List.take_subset _ _ hx)
      · intro hc
        exact absurd (by simpa using hc) hle

/-- Witness for C3 at a concrete draw of 2 winners from 3 participants. -/
theorem selection_bound_witness :
    (select_winners [3, 1, 2]
        [(1, exParticipant 1), (2, exParticipant 2), (3, exParticipant 3)]
        2).length =
      min [(1, exParticipant 1), (2, exParticipant 2),
        (3, exParticipant 3)].length (2 : Int).toNat :=
  (selection_bound [3, 1, 2]
    [(1, exParticipant 1), (2, exParticipant 2), (3, exParticipant 3)] 2
    (by decide) (by decide) (by decide)).1

/-! ## Claim C8: cooldown check correctness -/

/-- C8: `check_cooldown` returns `false` and leaves the entry in place
while `now` is strictly before the stored expiry, returns `true` and
evicts the entry once `now` is at or past the expiry, and returns `true`
unchanged when no entry exists. -/
theorem cooldown_correct (s : Store) (now : Int) (user_id : Nat)
    (action : String) :
    (∀ cd, alLookup s.user_cooldowns (user_id, action) = some cd →
      (now < cd.expires_at → check_cooldown s now user_id action = (false, s)) ∧
      (cd.expires_at ≤ now →
        check_cooldown s now user_id action =
          (true, { s with user_cooldowns := alErase s.user_cooldowns (user_id, action) }))) ∧
    (alLookup s.user_cooldowns (user_id, action) = none →
      check_cooldown s now user_id action = (true, s)) := by
  refine ⟨fun cd hcd => ⟨fun hlt => ?_, fun hge => ?_⟩, fun hn => ?_⟩
  · simp [check_cooldown, hcd, hlt]
  · simp [check_cooldown, hcd, not_lt.mpr hge]
  · simp [check_cooldown, hn]

/-- Witness for C8: user 7's cooldown in `exStore` expires at 100, so a
check at time 50 is blocked and evicts nothing. -/
theorem cooldown_correct_witness :
    check_cooldown exStore 50 7 "participate" = (false, exStore) :=
  ((cooldown_correct exStore 50 7 "participate").1
    { expires_at := 100, action := "participate", set_at := 0 } rfl).1
    (by decide)

/-! ## Claim C10: remaining-cooldown truncation -/

/-- C10: `get_remaining_cooldown` returns the `.seconds` component of the
timedelta (the floor-mod of the difference by 86400), so whenever the
expiry lies more than 24 hours ahead the returned value is below 86400 and
strictly below the true number of seconds until expiry. -/
theorem remaining_cooldown_truncated (s : Store) (now : Int) (user_id : Nat)
    (action : String) (cd : Cooldown)
    (hcd : alLookup s.user_cooldowns (user_id, action) = some cd)
    (hfar : 86400 < cd.expires_at - now) :
    get_remaining_cooldown s now user_id action < 86400 ∧
    get_remaining_cooldown s now user_id action < cd.expires_at - now := by
  have hmod : (cd.expires_at - now) % 86400 < 86400 :=
    Int.emod_lt_of_pos _ (by norm_num)
  have h0 : (0 : Int) ≤ (cd.expires_at - now) % 86400 :=
    Int.emod_nonneg _ (by norm_num)
  have hval : get_remaining_cooldown s now user_id action =
      max 0 ((cd.expires_at - now) % 86400) := by
    unfold get_remaining_cooldown
    rw [hcd]
  rw [hval, max_eq_right h0]
  exact ⟨hmod, lt_trans hmod hfar⟩

/-- Witness for C10: user 8's cooldown in `exStore` expires at 200000;
queried at time 0 the reported remainder is below 86400 although more
than two days remain. -/
theorem remaining_cooldown_truncated_witness :
    get_remaining_cooldown exStore 0 8 "participate" < 86400 ∧
    get_remaining_cooldown exStore 0 8 "participate" < 200000 - 0 :=
  remaining_cooldown_truncated exStore 0 8 "participate"
    { expires_at := 200000, action := "participate", set_at := 0 }
    rfl (by decide)

/-! ## Projection facts for the state transformers -/

theorem update_user_stats_giveaways (s : Store) (now : Int) (uid : Nat)
    (k : StatKind) : (update_user_stats s now uid k).giveaways = s.giveaways := rfl

theorem update_user_stats_winners (s : Store) (now : Int) (uid : Nat)
    (k : StatKind) : (update_user_stats s now uid k).winners = s.winners := rfl

theorem update_user_stats_participants (s : Store) (now : Int) (uid : Nat)
    (k : StatKind) : (update_user_stats s now uid k).participants = s.participants := rfl

theorem add_log_giveaways (s : Store) (e : LogEntry) :
    (add_log s e).giveaways = s.giveaways := rfl

theorem add_log_winners (s : Store) (e : LogEntry) :
    (add_log s e).winners = s.winners := rfl

/-! ## Claim C7: winner disjointness -/

/-- C7: `add_winner` rejects a `(giveaway, user)` pair that is already a
winner with `false` and leaves the store unchanged; otherwise it returns
`true`, appends exactly one winner record for that user and sets the
giveaway's winners-selected flag; consequently a winner list with no
duplicate user IDs never acquires one. -/
theorem winner_disjointness (s : Store) (now : Int) (gid : String)
    (user_id : Nat) (prize : Option String) :
    (user_id ∈ (winnersOf s gid).map Winner.user_id →
      add_winner s now gid user_id prize = (false, s)) ∧
    (user_id ∉ (winnersOf s gid).map Winner.user_id →
      (add_winner s now gid user_id prize).1 = true ∧
      winnersOf (add_winner s now gid user_id prize).2 gid =
        winnersOf s gid ++
          [{ user_id := user_id, won_at := now, prize_claimed := false,
             claimed_at := none, prize_details := prize }] ∧
      (∀ g, alLookup s.giveaways gid = some g →
        alLookup (add_winner s now gid user_id prize).2.giveaways gid =
          some { g with winners_selected := true })) ∧
    (((winnersOf s gid).map Winner.user_id).Nodup →
      ((winnersOf (add_winner s now gid user_id prize).2 gid).map
        Winner.user_id).Nodup) := by
  have hmm : (user_id ∈ (winnersOf s gid).map Winner.user_id) ↔
      ((winnersOf s gid).any (fun w => w.user_id = user_id) = true) := by
    simp [List.any_eq_true]
  have hdup : user_id ∈ (winnersOf s gid).map Winner.user_id →
      add_winner s now gid user_id prize = (false, s) := by
    intro hmem
    have hany := hmm.mp hmem
    cases hw0 : alLookup s.winners gid with
    | none =>
        exfalso
        rw [winnersOf, hw0] at hmem
        simp at hmem
    | some l =>
        have hany2 : l.any (fun w => w.user_id = user_id) = true := by
          rw [winnersOf, hw0] at hany
          simpa using hany
        simp [add_winner, hw0, hany2]
  have hfresh : user_id ∉ (winnersOf s gid).map Winner.user_id →
      (add_winner s now gid user_id prize).1 = true ∧
      winnersOf (add_winner s now gid user_id prize).2 gid =
        winnersOf s gid ++
          [{ user_id := user_id, won_at := now, prize_claimed := false,
             claimed_at := none, prize_details := prize }] ∧
      (∀ g, alLookup s.giveaways gid = some g →
        alLookup (add_winner s now gid user_id prize).2.giveaways gid =
          some { g with winners_selected := true }) := by
    intro hnotmem
    have hprop : ¬ ∃ x ∈ winnersOf s gid, x.user_id = user_id :=
      fun ⟨x, hx, he⟩ => hnotmem (List.mem_map.mpr ⟨x, hx, he⟩)
    cases hw0 : alLookup s.winners gid with
    | none =>
        have hws : winnersOf s gid = [] := by
          unfold winnersOf
          rw [hw0]
          rfl
        rw [hws] at hprop ⊢
        refine ⟨?_, ?_, ?_⟩
        · simp [add_winner, hw0]
        · simp only [add_winner, hw0, winnersOf]
          cases hg2 : alLookup s.giveaways gid <;>
            simp [hg2, update_user_stats_winners, alLookup_alSet_self]
        · intro g hg
          simp [add_winner, hw0, hg, update_user_stats_giveaways,
            alLookup_alModify_self]
    | some l =>
        have hws : winnersOf s gid = l := by
          unfold winnersOf
          rw [hw0]
          rfl
        rw [hws] at hprop ⊢
        refine ⟨?_, ?_, ?_⟩
        · simp [add_winner, hw0, hprop]
        · simp only [add_winner, hw0, winnersOf]
          cases hg2 : alLookup s.giveaways gid <;>
            simp [hg2, hprop, update_user_stats_winners, alLookup_alSet_self]
        · intro g hg
          simp [add_winner, hw0, hprop, hg, update_user_stats_giveaways,
            alLookup_alModify_self]
  refine ⟨hdup, hfresh, ?_⟩
  intro hnd
  by_cases hmem : user_id ∈ (winnersOf s gid).map Winner.user_id
  · rw [hdup hmem]
    exact hnd
  · rw [(hfresh hmem).2.1]
    simp [List.nodup_append, hnd, hmem]

/-- Witness for C7: adding fresh winner 7 to the (winnerless) giveaway
`"g"` of `exStore` succeeds. -/
theorem winner_disjointness_witness :
    (add_winner exStore 20 "g" 7 none).1 = true :=
  ((winner_disjointness exStore 20 "g" 7 none).2.1 (by decide)).1

/-! ## Claim C4: `add_participant` taxonomy and postcondition -/

/-- The user's stored participation counter (0 when no stats entry
exists). -/
def participationCount (s : Store) (user_id : Nat) : Nat :=
  match alLookup s.user_stats user_id with
  | some st => st.total_participations
  | none => 0

/-- C4: `add_participant` fails with the not-found / not-active / ended /
already-joined results in source order; on success it inserts the record,
sets the cached participant count to the new record count, and bumps the
user's participation statistic; a second join attempt by the same user is
rejected as already joined and changes nothing. -/
theorem add_participant_taxonomy (s : Store) (now : Int) (gid : String)
    (user_id : Nat) (u : UserData) :
    (alLookup s.giveaways gid = none →
      add_participant s now gid user_id u = ((false, "Giveaway not found"), s)) ∧
    (∀ g, alLookup s.giveaways gid = some g →
      (g.status ≠ "active" →
        add_participant s now gid user_id u =
          ((false, "Giveaway is not active"), s)) ∧
      (g.status = "active" → endTimePassed g now = true →
        add_participant s now gid user_id u =
          ((false, "Giveaway has ended"), s)) ∧
      (g.status = "active" → endTimePassed g now = false →
        (alLookup (participantsOf s gid) user_id).isSome →
        add_participant s now gid user_id u =
          ((false, "Already joined this giveaway"), s)) ∧
      (g.status = "active" → endTimePassed g now = false →
        alLookup (participantsOf s gid) user_id = none →
        (add_participant s now gid user_id u).1 =
          (true, "Successfully joined giveaway") ∧
        participantsOf (add_participant s now gid user_id u).2 gid =
          participantsOf s gid ++ [(user_id, participant_data u user_id now)] ∧
        alLookup (add_participant s now gid user_id u).2.giveaways gid =
          some { g with participants_count := (participantsOf s gid).length + 1 } ∧
        participationCount (add_participant s now gid user_id u).2 user_id =
          participationCount s user_id + 1 ∧
        (∀ now2 u2, endTimePassed g now2 = false →
          add_participant (add_participant s now gid user_id u).2 now2 gid
              user_id u2 =
            ((false, "Already joined this giveaway"),
              (add_participant s now gid user_id u).2)))) := by
  refine ⟨?_, fun g hg => ⟨?_, ?_, ?_, ?_⟩⟩
  · intro hn
    simp [add_participant, hn]
  · intro hst
    simp [add_participant, hg, hst]
  · intro hst het
    simp [add_participant, hg, hst, het]
  · intro hst het hsome
    cases hps : alLookup s.participants gid with
    | none =>
        exfalso
        unfold participantsOf at hsome
        rw [hps] at hsome
        simp [alLookup] at hsome
    | some pl =>
        have hpl : participantsOf s gid = pl := by
          unfold participantsOf
          rw [hps]
          rfl
        rw [hpl] at hsome
        obtain ⟨p, hp⟩ := Option.isSome_iff_exists.mp hsome
        simp [add_participant, hg, hst, het, hps, hp]
  · intro hst het hnone
    cases hps : alLookup s.participants gid with
    | none =>
        have hpl : participantsOf s gid = [] := by
          unfold participantsOf
          rw [hps]
          rfl
        rw [hpl] at hnone ⊢
        have h1 : (add_participant s now gid user_id u).1 =
            (true, "Successfully joined giveaway") := by
          simp [add_participant, hg, hst, het, hps, alLookup_alSet_self, alLookup]
        have h2 : participantsOf (add_participant s now gid user_id u).2 gid =
            [] ++ [(user_id, participant_data u user_id now)] := by
          unfold participantsOf
          simp [add_participant, hg, hst, het, hps, alLookup_alSet_self, alLookup,
            update_user_stats_participants]
        have h3 : alLookup (add_participant s now gid user_id u).2.giveaways gid =
            some { g with participants_count :=
              (([] : List (Nat × Participant))).length + 1 } := by
          simp [add_participant, hg, hst, het, hps, alLookup_alSet_self, alLookup,
            update_user_stats_giveaways, alLookup_alModify_self]
        have h4 : participationCount (add_participant s now gid user_id u).2
            user_id = participationCount s user_id + 1 := by
          cases hus : alLookup s.user_stats user_id <;>
            simp [add_participant, hg, hst, het, hps, participationCount,
              update_user_stats, bumpStat, hus, alLookup_alSet_self, alLookup]
        refine ⟨h1, h2, h3, h4, ?_⟩
        intro now2 u2 het2
        have hSp : alLookup (add_participant s now gid user_id u).2.participants
            gid = some ([] ++ [(user_id, participant_data u user_id now)]) := by
          simp [add_participant, hg, hst, het, hps, alLookup_alSet_self, alLookup,
            update_user_stats_participants]
        generalize hS : (add_participant s now gid user_id u).2 = S at h3 hSp ⊢
        have hmem : alLookup ([] ++ [(user_id, participant_data u user_id now)])
            user_id = some (participant_data u user_id now) := by
          simp [alLookup]
        cases hetv : g.end_time with
        | none =>
            simp [add_participant, h3, hSp, hst, hmem, endTimePassed, hetv,
              alLookup]
        | some t =>
            have hlt : ¬ t ≤ now2 := by
              simpa [endTimePassed, hetv] using het2
            simp [add_participant, h3, hSp, hst, hmem, endTimePassed, hetv, hlt,
              alLookup]
    | some pl =>
        have hpl : participantsOf s gid = pl := by
          unfold participantsOf
          rw [hps]
          rfl
        rw [hpl] at hnone ⊢
        have h1 : (add_participant s now gid user_id u).1 =
            (true, "Successfully joined giveaway") := by
          simp [add_participant, hg, hst, het, hps, hnone]
        have h2 : participantsOf (add_participant s now gid user_id u).2 gid =
            pl ++ [(user_id, participant_data u user_id now)] := by
          unfold participantsOf
          simp [add_participant, hg, hst, het, hps, hnone, alLookup_alSet_self,
            update_user_stats_participants]
        have h3 : alLookup (add_participant s now gid user_id u).2.giveaways gid =
            some { g with participants_count := pl.length + 1 } := by
          simp [add_participant, hg, hst, het, hps, hnone, alLookup_alSet_self,
            update_user_stats_giveaways, alLookup_alModify_self]
        have h4 : participationCount (add_participant s now gid user_id u).2
            user_id = participationCount s user_id + 1 := by
          cases hus : alLookup s.user_stats user_id <;>
            simp [add_participant, hg, hst, het, hps, hnone, participationCount,
              update_user_stats, bumpStat, hus, alLookup_alSet_self]
        refine ⟨h1, h2, h3, h4, ?_⟩
        intro now2 u2 het2
        have hSp : alLookup (add_participant s now gid user_id u).2.participants
            gid = some (pl ++ [(user_id, participant_data u user_id now)]) := by
          simp [add_participant, hg, hst, het, hps, hnone, alLookup_alSet_self,
            update_user_stats_participants]
        generalize hS : (add_participant s now gid user_id u).2 = S at h3 hSp ⊢
        have hmem : alLookup (pl ++ [(user_id, participant_data u user_id now)])
            user_id = some (participant_data u user_id now) :=
          alLookup_append_right pl user_id _ hnone
        cases hetv : g.end_time with
        | none =>
            simp [add_participant, h3, hSp, hst, hmem, endTimePassed, hetv,
              alLookup]
        | some t =>
            have hlt : ¬ t ≤ now2 := by
              simpa [endTimePassed, hetv] using het2
            simp [add_participant, h3, hSp, hst, hmem, endTimePassed, hetv, hlt,
              alLookup]

/-- Witness for C4: a second user joining the active giveaway `"g"` of
`exStore` before its end succeeds with the source's success message. -/
theorem add_participant_taxonomy_witness :
    (add_participant exStore 5 "g" 9 ⟨none, none, none⟩).1 =
      (true, "Successfully joined giveaway") :=
  (((add_participant_taxonomy exStore 5 "g" 9 ⟨none, none, none⟩).2 exGiveaway
    rfl).2.2.2 rfl rfl rfl).1

/-! ## Claim C5: validation gate evaluation order -/

/-- Consistency of the validator's pure cooldown view with the store's
`check_cooldown` result. -/
theorem check_cooldown_fst (s : Store) (now : Int) (user_id : Nat)
    (action : String) :
    (check_cooldown s now user_id action).1 =
      !(cooldownActive s now user_id action) := by
  unfold check_cooldown cooldownActive
  cases h : alLookup s.user_cooldowns (user_id, action) with
  | none => simp
  | some cd =>
      by_cases hlt : now < cd.expires_at
      · simp [hlt]
      · simp [hlt]

/-- `exStore` with user 3 banned. -/
def exStoreB : Store :=
  { exStore with banned_users := [{ user_id := 3, active := true, reason := "spam" }] }

/-- C5: `validate_participation` evaluates banned → not-found → inactive →
already-participant → cooldown → subscription, in that order with
short-circuiting; the oracle is consulted exactly when every local check
passes; the subscription rejection alone carries
`"subscription_required"` with the missing-channel list, every other
outcome carries `missing = none`. -/
theorem validation_gate_order (s : Store) (now : Int) (user_id : Nat)
    (gid : String) (oracle : Bool × List String) :
    ((validate_participation s now user_id gid oracle).2 = true ↔
      (is_banned s user_id = false ∧
        ∃ g, alLookup s.giveaways gid = some g ∧ g.status = "active" ∧
          is_participant s gid user_id = false ∧
          cooldownActive s now user_id "participate" = false)) ∧
    (is_banned s user_id = true →
      validate_participation s now user_id gid oracle =
        (⟨false, "🚫 Access Restricted\nYou are banned from using this bot.", none⟩, false)) ∧
    (is_banned s user_id = false → alLookup s.giveaways gid = none →
      validate_participation s now user_id gid oracle =
        (⟨false, "No active giveaway found.", none⟩, false)) ∧
    (∀ g, is_banned s user_id = false → alLookup s.giveaways gid = some g →
      g.status ≠ "active" →
      validate_participation s now user_id gid oracle =
        (⟨false, "This giveaway is not active.", none⟩, false)) ∧
    (∀ g, is_banned s user_id = false → alLookup s.giveaways gid = some g →
      g.status = "active" → is_participant s gid user_id = true →
      validate_participation s now user_id gid oracle =
        (⟨false, "You have already joined this giveaway.", none⟩, false)) ∧
    (∀ g, is_banned s user_id = false → alLookup s.giveaways gid = some g →
      g.status = "active" → is_participant s gid user_id = false →
      cooldownActive s now user_id "participate" = true →
      validate_participation s now user_id gid oracle =
        (⟨false, "⏳ Please wait " ++
          toString (get_remaining_cooldown s now user_id "participate") ++
          " seconds before joining again.", none⟩, false)) ∧
    ((validate_participation s now user_id gid oracle).2 = true →
      oracle.1 = false →
      (validate_participation s now user_id gid oracle).1 =
        ⟨false, "subscription_required", some oracle.2⟩) ∧
    ((validate_participation s now user_id gid oracle).2 = true →
      oracle.1 = true →
      (validate_participation s now user_id gid oracle).1 =
        ⟨true, "User validated successfully", none⟩) ∧
    ((validate_participation s now user_id gid oracle).2 = false →
      (validate_participation s now user_id gid oracle).1.missing = none) := by
  by_cases hban : is_banned s user_id = true
  · have hv : validate_participation s now user_id gid oracle =
        (⟨false, "🚫 Access Restricted\nYou are banned from using this bot.", none⟩, false) := by
      simp [validate_participation, hban]
    rw [hv]
    simp [hban]
  · have hban2 : is_banned s user_id = false := by
      simpa using hban
    cases hg : alLookup s.giveaways gid with
    | none =>
        have hv : validate_participation s now user_id gid oracle =
            (⟨false, "No active giveaway found.", none⟩, false) := by
          simp [validate_participation, hban2, hg]
        rw [hv]
        simp [hban2, hg]
    | some g =>
        by_cases hst : g.status = "active"
        · by_cases hpart : is_participant s gid user_id = true
          · have hv : validate_participation s now user_id gid oracle =
                (⟨false, "You have already joined this giveaway.", none⟩, false) := by
              simp [validate_participation, hban2, hg, hst, hpart]
            rw [hv]
            simp [hban2, hg, hst, hpart]
          · have hpart2 : is_participant s gid user_id = false := by
              simpa using hpart
            by_cases hcd : cooldownActive s now user_id "participate" = true
            · have hv : validate_participation s now user_id gid oracle =
                  (⟨false, "⏳ Please wait " ++
                    toString (get_remaining_cooldown s now user_id "participate") ++
                    " seconds before joining again.", none⟩, false) := by
                simp [validate_participation, hban2, hg, hst, hpart2, hcd]
              rw [hv]
              simp [hban2, hg, hst, hpart2, hcd]
            · have hcd2 : cooldownActive s now user_id "participate" = false := by
                simpa using hcd
              by_cases ho : oracle.1 = true
              · have hv : validate_participation s now user_id gid oracle =
                    (⟨true, "User validated successfully", none⟩, true) := by
                  simp [validate_participation, hban2, hg, hst, hpart2, hcd2, ho]
                rw [hv]
                simp [hban2, hg, hst, hpart2, hcd2, ho]
              · have ho2 : oracle.1 = false := by simpa using ho
                have hv : validate_participation s now user_id gid oracle =
                    (⟨false, "subscription_required", some oracle.2⟩, true) := by
                  simp [validate_participation, hban2, hg, hst, hpart2, hcd2, ho2]
                rw [hv]
                simp [hban2, hg, hst, hpart2, hcd2, ho2]
        · have hv : validate_participation s now user_id gid oracle =
              (⟨false, "This giveaway is not active.", none⟩, false) := by
            simp [validate_participation, hban2, hg, hst]
          rw [hv]
          simp [hban2, hg, hst]

/-- Witness for C5: the banned user 3 of `exStoreB` is rejected with the
ban message before anything else is consulted. -/
theorem validation_gate_order_witness :
    validate_participation exStoreB 5 3 "g" (true, []) =
      (⟨false, "🚫 Access Restricted\nYou are banned from using this bot.", none⟩, false) :=
  (validation_gate_order exStoreB 5 3 "g" (true, [])).2.1 (by decide)

/-! ## Claim C9: load resilience and backup-before-write -/

/-- One step of the participant-key repair never loses a stored binding. -/
theorem ensureParticipantKeys_preserves (gs : List (String × Giveaway))
    (ps : List (String × List (Nat × Participant))) (k : String)
    (v : List (Nat × Participant)) (h : alLookup ps k = some v) :
    alLookup (ensureParticipantKeys gs ps) k = some v := by
  induction gs generalizing ps with
  | nil => exact h
  | cons p gs ih =>
      unfold ensureParticipantKeys
      rw [List.foldl_cons]
      cases hp : alLookup ps p.1 with
      | some _ =>
          simp only [hp]
          exact ih ps h
      | none =>
          simp only [hp]
          exact ih _ (alLookup_append_of_some ps [(p.1, [])] k v h)

/-- After `_ensure_data_structure`, every giveaway key has a participant
dict. -/
theorem ensureParticipantKeys_covers (gs : List (String × Giveaway))
    (ps : List (String × List (Nat × Participant))) (k : String)
    (h : k ∈ gs.map Prod.fst) :
    (alLookup (ensureParticipantKeys gs ps) k).isSome := by
  induction gs generalizing ps with
  | nil => simp at h
  | cons p gs ih =>
      rw [List.map_cons] at h
      unfold ensureParticipantKeys
      rw [List.foldl_cons]
      rcases List.mem_cons.mp h with heq | ht
      · subst heq
        cases hp : alLookup ps p.1 with
        | some l =>
            simp only [hp]
            rw [show (List.foldl _ ps gs : List (String × List (Nat × Participant)))
              = ensureParticipantKeys gs ps from rfl]
            rw [ensureParticipantKeys_preserves gs ps p.1 l hp]
            rfl
        | none =>
            simp only [hp]
            rw [show (List.foldl _ (ps ++ [(p.1, [])]) gs :
              List (String × List (Nat × Participant)))
              = ensureParticipantKeys gs (ps ++ [(p.1, [])]) from rfl]
            rw [ensureParticipantKeys_preserves gs _ p.1 []
              (alLookup_append_right ps p.1 [] hp)]
            rfl
      · cases hp : alLookup ps p.1 with
        | some _ =>
            simp only [hp]
            exact ih ps ht
        | none =>
            simp only [hp]
            exact ih _ ht

/-- An all-keys-missing parsed document. -/
def exRawDoc : RawDoc :=
  { giveaways := none, participants := none, winners := none,
    banned_users := none, broadcast_chats := none, user_cooldowns := none,
    logs := none, giveaway_counters := none, user_stats := none,
    settings := none }

/-- C9: a missing or corrupt backing file loads as the default empty store
(never a fatal error); a parsed file has every missing top-level
collection backfilled with its default and present collections kept, with
a participant dict ensured per giveaway; and saving over an existing file
first copies it to the one-generation backup slot. -/
theorem load_resilience (now : Int) (fs : FileSystem) (doc : RawDoc)
    (s : Store) :
    (fs.file = none → (load_data now fs).1 = get_default_data now) ∧
    (fs.file = some .corrupt → (load_data now fs).1 = get_default_data now) ∧
    (fs.file = some (.parsed doc) →
      (load_data now fs).1.giveaways = doc.giveaways.getD [] ∧
      (load_data now fs).1.winners = doc.winners.getD [] ∧
      (load_data now fs).1.banned_users = doc.banned_users.getD [] ∧
      (load_data now fs).1.broadcast_chats = doc.broadcast_chats.getD [] ∧
      (load_data now fs).1.user_cooldowns = doc.user_cooldowns.getD [] ∧
      (load_data now fs).1.logs = doc.logs.getD [] ∧
      (load_data now fs).1.giveaway_counters = doc.giveaway_counters.getD [] ∧
      (load_data now fs).1.user_stats = doc.user_stats.getD [] ∧
      (doc.settings = none →
        (load_data now fs).1.settings = (get_default_data now).settings) ∧
      (∀ k v, alLookup (doc.participants.getD []) k = some v →
        alLookup (load_data now fs).1.participants k = some v) ∧
      (∀ gid ∈ ((load_data now fs).1.giveaways.map Prod.fst),
        (alLookup (load_data now fs).1.participants gid).isSome)) ∧
    (∀ c, fs.file = some c → (save_data fs s).backup = some c) ∧
    ((save_data fs s).file = some (.parsed (toRawDoc s))) := by
  refine ⟨?_, ?_, ?_, ?_, ?_⟩
  · intro h
    simp [load_data, h]
  · intro h
    simp [load_data, h]
  · intro h
    have hl : (load_data now fs).1 = ensure_data_structure now doc := by
      simp [load_data, h]
    rw [hl]
    refine ⟨rfl, rfl, rfl, rfl, rfl, rfl, rfl, rfl, ?_, ?_, ?_⟩
    · intro hs
      simp [ensure_data_structure, hs]
    · intro k v hv
      exact ensureParticipantKeys_preserves _ _ k v hv
    · intro gid hgid
      exact ensureParticipantKeys_covers _ _ gid hgid
  · intro c h
    simp [save_data, h]
  · rfl

/-- Witness for C9: loading from an empty filesystem yields the default
store, and saving `exStore` over an existing corrupt file backs the old
content up first. -/
theorem load_resilience_witness :
    (load_data 0 { file := none, backup := none }).1 = get_default_data 0 ∧
    (save_data { file := some .corrupt, backup := none } exStore).backup =
      some .corrupt :=
  ⟨(load_resilience 0 { file := none, backup := none } exRawDoc exStore).1 rfl,
    (load_resilience 0 { file := some .corrupt, backup := none } exRawDoc
      exStore).2.2.2.1 FileContent.corrupt rfl⟩

/-! ## Claim C1: startup recovery and overdue giveaways

`GiveawayScheduler.start` loads its worklist from `get_active_giveaways`,
which excludes every ACTIVE giveaway whose end time has already passed
(`end_time > now` is required for inclusion).  The end-immediately branch
of `schedule_giveaway_end` is therefore unreachable from `start`: an
overdue ACTIVE giveaway is neither ended nor timer-scheduled at boot, and
is only picked up by the periodic reconciliation sweep
`check_expired_giveaways`. -/

/-- C1 counterexample: in `exStore`, giveaway `"g"` is ACTIVE with end
time 10, already past at boot time 20, yet `start` does not invoke the
end-of-giveaway transition for it. -/
theorem startup_recovery_counterexample :
    alLookup exStore.giveaways "g" = some exGiveaway ∧
    exGiveaway.status = "active" ∧
    exGiveaway.end_time = some 10 ∧ (10 : Int) ≤ 20 ∧
    "g" ∉ startImmediatelyEnded exStore 20 :=
  ⟨rfl, rfl, rfl, by decide, by decide⟩

/-- C1 (amended): `start` never ends a giveaway immediately — its worklist
`get_active_giveaways` excludes the overdue ones — so an ACTIVE giveaway
whose end time has passed gets no timer either, and is instead returned by
the expired-giveaway query and ended by the reconciliation sweep (it has
no pending timer job). -/
theorem startup_recovery_amended (s : Store) (now : Int) (gid : String)
    (g : Giveaway) (t : Int)
    (hnd : (s.giveaways.map Prod.fst).Nodup)
    (hl : alLookup s.giveaways gid = some g)
    (hst : g.status = "active") (het : g.end_time = some t) (hle : t ≤ now) :
    startImmediatelyEnded s now = [] ∧
    gid ∉ timersRegistered s now ∧
    gid ∈ sweepEnds s now (timersRegistered s now) := by
  have key : ∀ p ∈ get_active_giveaways s now,
      ¬ (schedule_giveaway_end now p.2 = ScheduleAction.endNow) := by
    intro p hp hc
    have hp2 := (List.mem_filter.mp hp).2
    cases hev : p.2.end_time with
    | none =>
        rw [schedule_giveaway_end, hev] at hc
        exact absurd hc (by simp)
    | some t2 =>
        have hlt : now < t2 := by
          simp [hev] at hp2
          exact hp2.2
        rw [schedule_giveaway_end, hev] at hc
        simp [not_le.mpr hlt] at hc
  have hSIE : startImmediatelyEnded s now = [] := by
    unfold startImmediatelyEnded
    have hfil : (get_active_giveaways s now).filter
        (fun p => decide (schedule_giveaway_end now p.2 = .endNow)) = [] := by
      rw [List.filter_eq_nil_iff]
      intro p hp
      simpa using key p hp
    rw [hfil]
    rfl
  have hTR : gid ∉ timersRegistered s now := by
    intro hmem
    unfold timersRegistered at hmem
    obtain ⟨p, hpf, hpeq⟩ := List.mem_map.mp hmem
    have hpact := List.mem_filter.mp hpf
    have hpmem := (List.mem_filter.mp hpact.1).1
    have hppred := (List.mem_filter.mp hpact.1).2
    have hpg : p.2 = g := by
      have hlp : alLookup s.giveaways p.1 = some p.2 :=
        alLookup_of_mem_nodup s.giveaways p.1 p.2 hnd (by simpa using hpmem)
      rw [hpeq, hl] at hlp
      exact (Option.some.injEq _ _).mp hlp.symm
    rw [hpg, het] at hppred
    simp [hst] at hppred
    exact absurd hle (not_le.mpr hppred)
  refine ⟨hSIE, hTR, ?_⟩
  unfold sweepEnds
  apply List.mem_filter.mpr
  constructor
  · apply List.mem_map.mpr
    refine ⟨(gid, g), ?_, rfl⟩
    apply List.mem_filter.mpr
    refine ⟨alLookup_mem s.giveaways gid g hl, ?_⟩
    simp [hst, het, hle]
  · simpa using hTR

/-- Witness for the amended C1 at the concrete overdue store. -/
theorem startup_recovery_amended_witness :
    startImmediatelyEnded exStore 20 = [] ∧
    "g" ∉ timersRegistered exStore 20 ∧
    "g" ∈ sweepEnds exStore 20 (timersRegistered exStore 20) :=
  startup_recovery_amended exStore 20 "g" exGiveaway 10 (by decide) rfl rfl
    rfl (by decide)

/-! ## Claim C6: status flip before the draw -/

/-- C6: the end-of-giveaway transition on an ACTIVE giveaway is, by the
source's own sequencing, the post-flip phase run on the store in which the
`"ended"` status has already been written; and a join attempt against
that flipped store is rejected as not-active. -/
theorem status_flip_before_draw (s : Store) (gid : String) (g : Giveaway)
    (now now2 : Int) (shuffled : List Nat) (user_id : Nat) (u : UserData)
    (hl : alLookup s.giveaways gid = some g) (hst : g.status = "active") :
    end_giveaway s gid now shuffled =
      endGiveawayAfterFlip (flipToEnded s gid now) gid g now shuffled ∧
    add_participant (flipToEnded s gid now) now2 gid user_id u =
      ((false, "Giveaway is not active"), flipToEnded s gid now) := by
  constructor
  · simp [end_giveaway, hl, hst]
  · have hfl : alLookup (flipToEnded s gid now).giveaways gid =
        some (endedUpdate now g) := by
      unfold flipToEnded
      simp [alLookup_alModify_self, hl]
    simp [add_participant, hfl, endedUpdate]

/-- Witness for C6: joining `exStore`'s giveaway `"g"` right after its
status flip is rejected as not active. -/
theorem status_flip_before_draw_witness :
    add_participant (flipToEnded exStore "g" 20) 20 "g" 9 ⟨none, none, none⟩ =
      ((false, "Giveaway is not active"), flipToEnded exStore "g" 20) :=
  (status_flip_before_draw exStore "g" exGiveaway 20 20 [7] 9 ⟨none, none, none⟩
    rfl rfl).2

/-! ## Claim C2: idempotent ending -/

theorem alLookup_status_alModify (l : List (String × Giveaway)) (gid gid2 : String)
    (f : Giveaway → Giveaway) (hf : ∀ g, (f g).status = g.status) :
    (alLookup (alModify l gid f) gid2).map Giveaway.status =
      (alLookup l gid2).map Giveaway.status := by
  by_cases h : gid = gid2
  · subst h
    rw [alLookup_alModify_self]
    cases alLookup l gid with
    | none => rfl
    | some g => simp [hf g]
  · rw [alLookup_alModify_ne l gid gid2 f h]

/-- `add_winner` never changes any giveaway's status. -/
theorem add_winner_status (s : Store) (now : Int) (gid : String) (uid : Nat)
    (prz : Option String) (gid2 : String) :
    (alLookup (add_winner s now gid uid prz).2.giveaways gid2).map
        Giveaway.status =
      (alLookup s.giveaways gid2).map Giveaway.status := by
  cases hw0 : alLookup s.winners gid with
  | none =>
      cases hg2 : alLookup s.giveaways gid with
      | none => simp [add_winner, hw0, hg2, update_user_stats_giveaways]
      | some g =>
          simp [add_winner, hw0, hg2, update_user_stats_giveaways,
            alLookup_status_alModify s.giveaways gid gid2
              (fun g => { g with winners_selected := true }) (fun g => rfl)]
  | some l =>
      by_cases hany : ∃ x ∈ l, x.user_id = uid
      · simp [add_winner, hw0, hany]
      · cases hg2 : alLookup s.giveaways gid with
        | none => simp [add_winner, hw0, hany, hg2, update_user_stats_giveaways]
        | some g =>
            simp [add_winner, hw0, hany, hg2, update_user_stats_giveaways,
              alLookup_status_alModify s.giveaways gid gid2
                (fun g => { g with winners_selected := true }) (fun g => rfl)]

/-- The winner-persistence loop never changes any giveaway's status. -/
theorem addWinnersLoop_status (now : Int) (gid : String) (l : List Nat)
    (s : Store) (gid2 : String) :
    (alLookup (addWinnersLoop now gid s l).1.giveaways gid2).map
        Giveaway.status =
      (alLookup s.giveaways gid2).map Giveaway.status := by
  induction l generalizing s with
  | nil => rfl
  | cons uid rest ih =>
      show (alLookup (addWinnersLoop now gid
        (add_winner s now gid uid none).2 rest).1.giveaways gid2).map
          Giveaway.status = _
      rw [ih, add_winner_status]

/-- The post-flip phase never changes any giveaway's status. -/
theorem endGiveawayAfterFlip_status (s : Store) (gid : String) (g : Giveaway)
    (now : Int) (sh : List Nat) (gid2 : String) :
    (alLookup (endGiveawayAfterFlip s gid g now sh).1.giveaways gid2).map
        Giveaway.status =
      (alLookup s.giveaways gid2).map Giveaway.status := by
  unfold endGiveawayAfterFlip
  by_cases hemp : (get_participants s gid).isEmpty
  · simp [hemp]
  · simp only [hemp, Bool.false_eq_true, if_false, add_log_giveaways]
    rw [addWinnersLoop_status]

/-- C2: running the end-of-giveaway transition a second time on the same
ID is a complete no-op — the store is unchanged and no winner writes,
announcements or notifications are emitted — and after a first run on an
existing giveaway the stored status is `"ended"`. -/
theorem end_idempotent (s : Store) (gid : String) (now1 now2 : Int)
    (sh1 sh2 : List Nat) :
    end_giveaway (end_giveaway s gid now1 sh1).1 gid now2 sh2 =
      ((end_giveaway s gid now1 sh1).1, ([] : List Event)) ∧
    ((alLookup s.giveaways gid).isSome →
      (alLookup (end_giveaway s gid now1 sh1).1.giveaways gid).map
        Giveaway.status = some "ended") := by
  cases hl : alLookup s.giveaways gid with
  | none =>
      have h1 : end_giveaway s gid now1 sh1 = (s, []) := by
        simp [end_giveaway, hl]
      rw [h1]
      constructor
      · simp [end_giveaway, hl]
      · intro hs
        simp at hs
  | some g =>
      by_cases hen : g.status = "ended"
      · have h1 : end_giveaway s gid now1 sh1 = (s, []) := by
          simp [end_giveaway, hl, hen]
        rw [h1]
        constructor
        · simp [end_giveaway, hl, hen]
        · intro _
          rw [hl]
          simp [hen]
      · have h1 : end_giveaway s gid now1 sh1 =
            endGiveawayAfterFlip (flipToEnded s gid now1) gid g now1 sh1 := by
          simp [end_giveaway, hl, hen]
        have hstat : (alLookup (end_giveaway s gid now1 sh1).1.giveaways
            gid).map Giveaway.status = some "ended" := by
          rw [h1, endGiveawayAfterFlip_status]
          unfold flipToEnded
          simp [alLookup_alModify_self, hl, endedUpdate]
        obtain ⟨g2, hg2, hg2s⟩ : ∃ g2,
            alLookup (end_giveaway s gid now1 sh1).1.giveaways gid = some g2 ∧
              g2.status = "ended" := by
          cases hx : alLookup (end_giveaway s gid now1 sh1).1.giveaways gid with
          | none =>
              rw [hx] at hstat
              simp at hstat
          | some g2 =>
              rw [hx] at hstat
              exact ⟨g2, rfl, by simpa using hstat⟩
        refine ⟨?_, fun _ => hstat⟩
        generalize hS : (end_giveaway s gid now1 sh1).1 = S at hg2 ⊢
        simp [end_giveaway, hg2, hg2s]

/-- Witness for C2: the status of `exStore`'s giveaway `"g"` reads
`"ended"` after one end-of-giveaway run. -/
theorem end_idempotent_witness :
    (alLookup (end_giveaway exStore "g" 20 [7]).1.giveaways "g").map
      Giveaway.status = some "ended" :=
  (end_idempotent exStore "g" 20 25 [7] [7]).2 (by decide)

end GiveAwayBot
